import Mathlib

/-!
Shallow embedding of the QRAIOP chaos-engineering core
(`src/chaos/chaos_engine.py` and `src/chaos/recovery/auto_recovery.py`)
and proofs about it.

External effects (Kubernetes API calls, HTTP requests, wall-clock time,
`asyncio.sleep`) are modelled by passing their observed outcomes in
explicitly: a fallible call becomes an `Except String α` value supplied by
an environment record, timestamps become a `Bool` flag recording that the
field was stamped, and the recovery polling loop receives the sequence of
pod listings it would observe, indexed by poll number (one poll every 5
seconds).  Python `dict` registries become association lists with
dict-style insert/delete.  Python's `int(x * p / 100)` on the pod counts
in range is exact rational flooring, embedded as `Nat` division.
-/

namespace Qraiop

/-- `ExperimentStatus` enum of `chaos_engine.py`. -/
inductive ExperimentStatus where
  | pending
  | running
  | completed
  | failed
  | aborted
deriving DecidableEq, Repr

/-- `FailureType` enum of `chaos_engine.py`. -/
inductive FailureType where
  | pod_kill
  | network_delay
  | network_partition
  | cpu_stress
  | memory_stress
  | disk_fill
  | dns_chaos
  | service_mesh_fault
deriving DecidableEq, Repr

/-- A Kubernetes pod as observed through `list_namespaced_pod`: its name,
its `status.phase`, and its `status.conditions` as (type, status) pairs. -/
structure Pod where
  name : String
  phase : String
  conditions : List (String × String)
deriving DecidableEq, Repr

/-- `ExperimentTarget` dataclass. -/
structure ExperimentTarget where
  namespace_ : String
  selector : List (String × String)
  percentage : Nat := 100
deriving DecidableEq, Repr

/-- `selector = ",".join([f"{k}={v}" for k, v in ...selector.items()])`. -/
def selectorString (sel : List (String × String)) : String :=
  String.intercalate "," (sel.map (fun kv => kv.1 ++ "=" ++ kv.2))

/-- The optional `steady_state_hypothesis` mapping: each of the three
recognised check keys may be present or absent.  The per-check
configurations keep the fields the checks read. -/
structure PodHealthConfig where
  namespace_ : String := "default"
  selector : List (String × String) := []
  min_replicas : Nat := 1
deriving DecidableEq, Repr

structure ServiceAvailabilityConfig where
  url : String
  timeout : Nat := 5
  expected_status : Nat := 200
deriving DecidableEq, Repr

structure MetricsConfig where
  thresholds : List (String × Nat) := []
deriving DecidableEq, Repr

structure Hypothesis where
  pod_health : Option PodHealthConfig := none
  service_availability : Option ServiceAvailabilityConfig := none
  metrics : Option MetricsConfig := none
deriving DecidableEq, Repr

/-- `ExperimentConfig` dataclass.  `duration` is a required field (it has
no default in the Python dataclass). -/
structure ExperimentConfig where
  name : String
  description : String
  failure_type : FailureType
  target : ExperimentTarget
  duration : Nat
  parameters : List (String × Nat) := []
  steady_state_hypothesis : Option Hypothesis := none
  rollback_config : Option (List (String × Nat)) := none
deriving DecidableEq, Repr

/-- A structured injected-failure record as returned by the `_inject_*`
strategies.  `killed_pods` is populated only by pod-kill. -/
structure FailureRecord where
  type : String
  namespace_ : String := ""
  selector : String := ""
  killed_pods : List String := []
deriving DecidableEq, Repr, Inhabited

/-- A recovery-action record as returned by the `_recover_*` helpers. -/
structure RecoveryRecord where
  type : String
  recovered_pods : List String := []
deriving DecidableEq, Repr

/-- Result of one steady-state check (`_check_pod_health`,
`_check_service_availability`, `_check_metrics`): the `type` tag, the
`valid` flag, an `error` field when the check caught an exception, and the
numeric diagnostics the checks record. -/
structure CheckResult where
  type : String
  valid : Bool
  error : Option String := none
  running_pods : Option Nat := none
  ready_pods : Option Nat := none
  min_required : Option Nat := none
  status_code : Option Nat := none
deriving DecidableEq, Repr

/-- The verdict returned by `_validate_steady_state`. -/
structure Verdict where
  valid : Bool
  checks : List CheckResult
deriving DecidableEq, Repr

/-- `ExperimentResult` dataclass.  Wall-clock timestamps are embedded as
flags recording whether the field was stamped. -/
structure ExperimentResult where
  experiment_id : String
  name : String
  status : ExperimentStatus
  end_time_stamped : Bool := false
  steady_state_before : Option Verdict := none
  steady_state_after : Option Verdict := none
  injected_failures : List FailureRecord := []
  recovery_actions : List RecoveryRecord := []
  metrics_collected : Bool := false
  error_message : Option String := none
deriving DecidableEq, Repr

/-! ## Failure injection -/

/-- `ChaosEngine._inject_pod_kill`, given the outcome of the
`list_namespaced_pod` call.  Computes
`num_to_kill = max(1, int(len(pods.items) * percentage / 100))`, deletes
the first `num_to_kill` pods in listing order and returns their names. -/
def inject_pod_kill (cfg : ExperimentConfig) (pods : Except String (List Pod)) :
    Except String FailureRecord :=
  let sel := selectorString cfg.target.selector
  match pods with
  | .error e => .error e
  | .ok items =>
    if items.isEmpty then
      .error ("No pods found with selector " ++ sel ++ " in namespace " ++
        cfg.target.namespace_)
    else
      let num_to_kill := max 1 (items.length * cfg.target.percentage / 100)
      let pods_to_kill := items.take num_to_kill
      .ok { type := "pod_kill"
            namespace_ := cfg.target.namespace_
            selector := sel
            killed_pods := pods_to_kill.map (·.name) }

/-- `ChaosEngine._inject_network_delay` (the returned record; the
`delay_ms`/`jitter_ms` parameters are read but only echoed back). -/
def inject_network_delay (cfg : ExperimentConfig) : FailureRecord :=
  { type := "network_delay", namespace_ := cfg.target.namespace_ }

/-- `ChaosEngine._inject_network_partition`. -/
def inject_network_partition (cfg : ExperimentConfig) : FailureRecord :=
  { type := "network_partition", namespace_ := cfg.target.namespace_ }

/-- `ChaosEngine._inject_cpu_stress`. -/
def inject_cpu_stress (cfg : ExperimentConfig) : FailureRecord :=
  { type := "cpu_stress", namespace_ := cfg.target.namespace_ }

/-- `ChaosEngine._inject_memory_stress`. -/
def inject_memory_stress (cfg : ExperimentConfig) : FailureRecord :=
  { type := "memory_stress", namespace_ := cfg.target.namespace_ }

/-- `ChaosEngine._inject_failure`: dispatch on the failure type.  The
unimplemented kinds raise `NotImplementedError`. -/
def inject_failure (cfg : ExperimentConfig) (pods : Except String (List Pod)) :
    Except String FailureRecord :=
  match cfg.failure_type with
  | .pod_kill => inject_pod_kill cfg pods
  | .network_delay => .ok (inject_network_delay cfg)
  | .network_partition => .ok (inject_network_partition cfg)
  | .cpu_stress => .ok (inject_cpu_stress cfg)
  | .memory_stress => .ok (inject_memory_stress cfg)
  | _ => .error "Failure type not implemented"

/-! ## Steady-state validation -/

/-- A pod is counted `Running` when `status.phase == "Running"`. -/
def isRunning (p : Pod) : Bool := p.phase == "Running"

/-- A running pod is `ready` when every condition of type `"Ready"` has
status `"True"` (vacuously ready when it has no `Ready` condition),
mirroring the comprehension in `_check_pod_health`. -/
def isReady (p : Pod) : Bool :=
  p.conditions.all (fun c => c.1 != "Ready" || c.2 == "True")

/-- `ChaosEngine._check_pod_health`, given the outcome of
`list_namespaced_pod`: an exception becomes `valid := false` with the
error recorded; otherwise valid iff the count of pods both Running and
Ready is at least `min_replicas`. -/
def check_pod_health (cfg : PodHealthConfig)
    (pods : Except String (List Pod)) : CheckResult :=
  match pods with
  | .error e => { type := "pod_health", valid := false, error := some e }
  | .ok items =>
    let running_pods := items.filter isRunning
    let ready_pods := running_pods.filter isReady
    { type := "pod_health"
      valid := decide (ready_pods.length ≥ cfg.min_replicas)
      running_pods := some running_pods.length
      ready_pods := some ready_pods.length
      min_required := some cfg.min_replicas }

/-- Observed outcome of the bounded-timeout `requests.get` in
`_check_service_availability`: the status code, or the exception text. -/
abbrev HttpOutcome := Except String Nat

/-- `ChaosEngine._check_service_availability`: an exception becomes
`valid := false` with the error recorded; otherwise valid iff the status
code equals the expected one. -/
def check_service_availability (cfg : ServiceAvailabilityConfig)
    (response : HttpOutcome) : CheckResult :=
  match response with
  | .error e => { type := "service_availability", valid := false, error := some e }
  | .ok code =>
    { type := "service_availability"
      valid := decide (code = cfg.expected_status)
      status_code := some code }

/-- `ChaosEngine._check_metrics`: the placeholder always returns
`valid := True`. -/
def check_metrics (_cfg : MetricsConfig) : CheckResult :=
  { type := "metrics", valid := true }

/-- Outcomes of the external calls one `_validate_steady_state` pass can
make: the pod listing seen by the pod-health check and the HTTP response
seen by the service-availability check. -/
structure CheckEnv where
  pods : Except String (List Pod)
  http : HttpOutcome
deriving Repr

/-- `ChaosEngine._validate_steady_state`: run each present check in the
fixed order pod-health, service-availability, metrics; the aggregate
`valid` is `all(check["valid"] for check in checks)`. -/
def validate_steady_state (h : Hypothesis) (env : CheckEnv) : Verdict :=
  let checks :=
    (h.pod_health.map (fun c => check_pod_health c env.pods)).toList ++
    (h.service_availability.map
      (fun c => check_service_availability c env.http)).toList ++
    (h.metrics.map check_metrics).toList
  { valid := checks.all (·.valid), checks := checks }

/-! ## Recovery -/

/-- `ChaosEngine._wait_for_pod_recovery`, polling loop.  `polls i` is the
pod listing the loop would observe on its `i`-th poll; the loop runs
`while time.time() - recovery_start < 300` with a 5-second sleep after
each unsuccessful poll, so poll `i` happens at elapsed time `5·i` seconds
and at most 60 polls (`i = 0 … 59`) occur before the timeout.  `fuel` is
the number of polls still allowed. -/
def waitLoop (polls : Nat → List Pod) (killed : Nat) :
    Nat → Nat → Except String RecoveryRecord
  | 0, _ => .error "Pod recovery timeout"
  | fuel + 1, i =>
    let running_pods := (polls i).filter isRunning
    if running_pods.length ≥ killed then
      .ok { type := "pod_recovery"
            recovered_pods := running_pods.map (·.name) }
    else
      waitLoop polls killed fuel (i + 1)

/-- `ChaosEngine._wait_for_pod_recovery`: succeeds at the first poll, in
at most 60 polls (300-second timeout at a 5-second interval), observing
at least `len(failure_info["killed_pods"])` Running pods; otherwise
raises `"Pod recovery timeout"`. -/
def wait_for_pod_recovery (failure_info : FailureRecord)
    (polls : Nat → List Pod) : Except String RecoveryRecord :=
  waitLoop polls failure_info.killed_pods.length 60 0

/-- `ChaosEngine._recover_network`. -/
def recover_network : RecoveryRecord := { type := "network_recovery" }

/-- `ChaosEngine._recover_resource_stress`. -/
def recover_resource_stress : RecoveryRecord := { type := "resource_recovery" }

/-- `ChaosEngine._recover_from_failure`: dispatch on the failure record's
`type` tag. -/
def recover_from_failure (failure_info : FailureRecord)
    (polls : Nat → List Pod) : Except String RecoveryRecord :=
  if failure_info.type == "pod_kill" then
    wait_for_pod_recovery failure_info polls
  else if failure_info.type == "network_delay" ||
      failure_info.type == "network_partition" then
    .ok recover_network
  else if failure_info.type == "cpu_stress" ||
      failure_info.type == "memory_stress" then
    .ok recover_resource_stress
  else
    .ok { type := "no_recovery_needed" }

/-! ## Experiment registries

`self.running_experiments` is a Python `dict` (unique keys) and
`self.experiment_history` a Python `list`.  The dict is embedded as an
association list: assignment prepends after removing any entry with the
same key, `del` removes the entry with the key, lookup finds it. -/

/-- `running_experiments[eid] = result` (dict assignment). -/
def dictInsert (eid : String) (r : ExperimentResult)
    (d : List (String × ExperimentResult)) : List (String × ExperimentResult) :=
  (eid, r) :: d.filter (fun kv => kv.1 ≠ eid)

/-- `del running_experiments[eid]`. -/
def dictErase (eid : String) (d : List (String × ExperimentResult)) :
    List (String × ExperimentResult) :=
  d.filter (fun kv => kv.1 ≠ eid)

/-- `running_experiments.get(eid)` / `eid in running_experiments`. -/
def dictLookup (eid : String) (d : List (String × ExperimentResult)) :
    Option ExperimentResult :=
  (d.find? (fun kv => kv.1 = eid)).map (·.2)

/-- The two experiment registries of `ChaosEngine`. -/
structure EngineState where
  running_experiments : List (String × ExperimentResult) := []
  experiment_history : List ExperimentResult := []
deriving Repr

/-! ## `run_experiment` -/

/-- Observed outcomes of the external calls one `run_experiment` pass
makes, in program order: the check environment of the pre-validation, the
pod listing seen by the injection step, the poll sequence seen by the
main-path recovery (step 6), the check environment of the
post-validation, and the poll sequence seen by the best-effort recovery
of the exception handler (which runs later, so it may observe different
listings). -/
structure RunEnv where
  checksBefore : CheckEnv
  injectPods : Except String (List Pod)
  recoveryPolls : Nat → List Pod
  checksAfter : CheckEnv
  failRecoveryPolls : Nat → List Pod

/-- The body of the `try` block of `run_experiment` (steps 2–8 of the
spec), starting from the freshly registered PENDING result: returns the
result as mutated so far, together with the raised exception message if
one of the steps raised. -/
def runTryFrom2 (cfg : ExperimentConfig) (env : RunEnv)
    (r : ExperimentResult) : ExperimentResult × Option String :=
  -- step 2: pre-validation guard
  let (r, invalid) :=
    match cfg.steady_state_hypothesis with
    | none => (r, false)
    | some h =>
      let v := validate_steady_state h env.checksBefore
      ({ r with steady_state_before := some v }, !v.valid)
  if invalid then
    (r, some "Steady state validation failed before experiment")
  else
    -- step 3: transition to RUNNING, inject
    let r := { r with status := .running }
    match inject_failure cfg env.injectPods with
    | .error e => (r, some e)
    | .ok failure_info =>
      let r := { r with injected_failures := r.injected_failures ++ [failure_info] }
      -- step 4: dwell sleep (no failure, no state change)
      -- step 5: metrics collection (placeholder getters, never raises)
      let r := { r with metrics_collected := true }
      -- step 6: recovery
      match recover_from_failure failure_info env.recoveryPolls with
      | .error e => (r, some e)
      | .ok recovery_info =>
        let r := { r with recovery_actions := r.recovery_actions ++ [recovery_info] }
        -- step 7: post-validation
        let r :=
          match cfg.steady_state_hypothesis with
          | none => r
          | some h =>
            let vAfter := validate_steady_state h env.checksAfter
            { r with steady_state_after := some vAfter }
        -- step 8: completion
        ({ r with status := .completed, end_time_stamped := true }, none)

/-- The `except` handler of `run_experiment`: mark FAILED, stamp the end
time, keep the message, and attempt recovery from the last
injected-failure record, swallowing a secondary recovery failure. -/
def runExceptHandler (env : RunEnv) (r : ExperimentResult) (e : String) :
    ExperimentResult :=
  let r := { r with status := .failed, error_message := some e,
                    end_time_stamped := true }
  match r.injected_failures.getLast? with
  | none => r
  | some failure_info =>
    match recover_from_failure failure_info env.failRecoveryPolls with
    | .error _ => r
    | .ok recovery_info =>
      { r with recovery_actions := r.recovery_actions ++ [recovery_info] }

/-- The `finally` block of `run_experiment`: append the result to history
unconditionally, then delete the id from `running_experiments` only if it
is still present. -/
def runFinally (eid : String) (r : ExperimentResult) (st : EngineState) :
    EngineState :=
  let st := { st with experiment_history := st.experiment_history ++ [r] }
  if (dictLookup eid st.running_experiments).isSome then
    { st with running_experiments := dictErase eid st.running_experiments }
  else
    st

/-- `ChaosEngine.run_experiment`, run to completion with no interleaved
task (the concurrent abort race is modelled separately below).  `eid` is
the generated `uuid4` id. -/
def run_experiment (cfg : ExperimentConfig) (env : RunEnv) (eid : String)
    (st : EngineState) : ExperimentResult × EngineState :=
  let r0 : ExperimentResult :=
    { experiment_id := eid, name := cfg.name, status := .pending }
  let st := { st with running_experiments := dictInsert eid r0 st.running_experiments }
  let (r, exc) := runTryFrom2 cfg env r0
  let r :=
    match exc with
    | none => r
    | some e => runExceptHandler env r e
  (r, runFinally eid r st)

/-! ## `abort_experiment` -/

/-- The `ExperimentConfig(...)` call inside `abort_experiment` builds the
temporary recovery config without the required `duration` field of the
dataclass, so in Python it raises
`TypeError: __init__() missing 1 required positional argument: 'duration'`
instead of producing a config. -/
def abortTempConfig : Except String ExperimentConfig :=
  .error "TypeError: missing 1 required positional argument: duration"

/-- `ChaosEngine.abort_experiment`: returns `false` when the id is not in
`running_experiments`; otherwise marks ABORTED, stamps the end time,
attempts recovery inside a `try` (the attempt first constructs the
temporary config, whose failure is caught and logged), then appends the
result to history and deletes the id from the running registry.
`polls` is the poll sequence a pod recovery would observe. -/
def abort_experiment (eid : String) (polls : Nat → List Pod)
    (st : EngineState) : Bool × EngineState :=
  match dictLookup eid st.running_experiments with
  | none => (false, st)
  | some r =>
    let r := { r with status := .aborted, end_time_stamped := true }
    let r :=
      if r.injected_failures.isEmpty then r
      else
        match abortTempConfig with
        | .error _ => r  -- exception caught and logged; no recovery record
        | .ok _ =>
          match recover_from_failure (r.injected_failures.getLast!) polls with
          | .error _ => r
          | .ok recovery_info =>
            { r with recovery_actions := r.recovery_actions ++ [recovery_info] }
    (true,
      { st with
          experiment_history := st.experiment_history ++ [r]
          running_experiments := dictErase eid st.running_experiments })

/-! ## AutoRecoverySystem (`auto_recovery.py`)

A metrics snapshot as produced by `_collect_system_metrics` and consumed
by the rule conditions.  Conditions and actions are arbitrary Python
callables that may raise, embedded as `Except String`-valued functions. -/

structure MetricsSnapshot where
  running_pods : Nat := 0
  min_required : Nat := 1
  service_valid : Bool := true
  error_rate_tenths : Nat := 0  -- error-rate percent ×10 (source uses a float)
deriving DecidableEq, Repr

/-- `RecoveryRule` dataclass of `auto_recovery.py`. -/
structure RecoveryRule where
  name : String
  condition : MetricsSnapshot → Except String Bool
  action : MetricsSnapshot → Except String Unit
  priority : Nat := 1
  max_retries : Nat := 3

/-- Insertion of a rule into a priority-sorted list before the first
element of greater-or-equal priority; iterated from the front this is
the classic stable insertion sort. -/
def insertSorted (r : RecoveryRule) : List RecoveryRule → List RecoveryRule
  | [] => [r]
  | x :: xs =>
    if r.priority ≤ x.priority then r :: x :: xs else x :: insertSorted r xs

/-- Stable insertion sort by priority — the embedding of Python's stable
`list.sort(key=lambda r: r.priority)`. -/
def sortByPriority : List RecoveryRule → List RecoveryRule
  | [] => []
  | x :: xs => insertSorted x (sortByPriority xs)

/-- `AutoRecoverySystem.add_rule`: append, then stable-sort the rule list
by priority. -/
def add_rule (rule : RecoveryRule) (rules : List RecoveryRule) :
    List RecoveryRule :=
  sortByPriority (rules ++ [rule])

/-- `AutoRecoverySystem._check_pod_crash`: running pod count below the
declared minimum. -/
def check_pod_crash (m : MetricsSnapshot) : Except String Bool :=
  .ok (decide (m.running_pods < m.min_required))

/-- `AutoRecoverySystem._check_service_unavailable`. -/
def check_service_unavailable (m : MetricsSnapshot) : Except String Bool :=
  .ok (!m.service_valid)

/-- `AutoRecoverySystem._check_high_error_rate`: error rate percent
strictly above 5.0. -/
def check_high_error_rate (m : MetricsSnapshot) : Except String Bool :=
  .ok (decide (m.error_rate_tenths > 50))

/-- One pass of the `for rule in self.recovery_rules` loop of
`monitor_and_recover` on a fixed snapshot.  Returns the names of the
rules whose action was invoked, in invocation order, and the exception
that cut the pass short, if any: the loop body sits inside the tick's
single `try`, so a raising condition or action abandons the remaining
rules of that tick. -/
def runRulesFrom (m : MetricsSnapshot) :
    List RecoveryRule → List String × Option String
  | [] => ([], none)
  | rule :: rest =>
    match rule.condition m with
    | .error e => ([], some e)
    | .ok false => runRulesFrom m rest
    | .ok true =>
      match rule.action m with
      | .error e => ([rule.name], some e)
      | .ok _ =>
        let (names, exc) := runRulesFrom m rest
        (rule.name :: names, exc)

/-- `AutoRecoverySystem.monitor_and_recover`: the continuous
`while self.running` loop — one tick per metrics snapshot, each tick's
exception caught by the per-tick `try/except` so that the loop always
proceeds to the next tick.  The snapshot list plays the role of the
cooperative `running` flag: the loop stops when it is exhausted. -/
def monitor_and_recover (rules : List RecoveryRule)
    (snapshots : List MetricsSnapshot) : List (List String × Option String) :=
  snapshots.map (fun m => runRulesFrom m rules)

/-- A rule matches a snapshot when its condition returns `True` (without
raising). -/
def ruleMatches (m : MetricsSnapshot) (rule : RecoveryRule) : Bool :=
  match rule.condition m with
  | .ok true => true
  | _ => false

/-! ## Theorems -/

/-- C2: for every pod-kill experiment whose target selector matches at
least one pod, the injector deletes exactly
`max(1, floor(matchCount × percentage / 100))` pods — never zero — chosen
as the first N pods in listing order, and returns a record containing the
exact names of the pods deleted. -/
theorem pod_kill_count_and_names (cfg : ExperimentConfig) (items : List Pod)
    (hne : items ≠ []) (hpct : cfg.target.percentage ≤ 100) :
    ∃ rec, inject_pod_kill cfg (Except.ok items) = Except.ok rec ∧
      rec.type = "pod_kill" ∧
      rec.killed_pods =
        (items.take (max 1 (items.length * cfg.target.percentage / 100))).map
          Pod.name ∧
      rec.killed_pods.length =
        max 1 (items.length * cfg.target.percentage / 100) ∧
      0 < rec.killed_pods.length := by
  have hLpos : 0 < items.length := List.length_pos.mpr hne
  have hdiv : items.length * cfg.target.percentage / 100 ≤ items.length := by
    have : items.length * cfg.target.percentage ≤ items.length * 100 :=
      Nat.mul_le_mul_left _ hpct
    omega
  have hmax : max 1 (items.length * cfg.target.percentage / 100) ≤
      items.length := by omega
  refine ⟨{ type := "pod_kill", namespace_ := cfg.target.namespace_,
            selector := selectorString cfg.target.selector,
            killed_pods :=
              (items.take
                (max 1 (items.length * cfg.target.percentage / 100))).map
                Pod.name },
          ?_, rfl, rfl, ?_, ?_⟩
  · simp [inject_pod_kill, List.isEmpty_iff, hne]
  · simp [List.length_take, Nat.min_eq_left hmax]
  · simp [List.length_take]
    omega

theorem pod_kill_count_and_names_witness :
    (["web-0", "web-1", "web-2", "web-3"].map
        (fun n => Pod.mk n "Running" [])) ≠ [] ∧
    ∃ rec,
      inject_pod_kill
        { name := "exp", description := "", failure_type := .pod_kill,
          target := { namespace_ := "default", selector := [("app", "web")],
                      percentage := 50 },
          duration := 10 }
        (Except.ok (["web-0", "web-1", "web-2", "web-3"].map
          (fun n => Pod.mk n "Running" []))) = Except.ok rec ∧
      rec.type = "pod_kill" ∧
      rec.killed_pods =
        ((["web-0", "web-1", "web-2", "web-3"].map
            (fun n => Pod.mk n "Running" [])).take
          (max 1 ((["web-0", "web-1", "web-2", "web-3"].map
            (fun n => Pod.mk n "Running" [])).length * 50 / 100))).map
          Pod.name ∧
      rec.killed_pods.length =
        max 1 ((["web-0", "web-1", "web-2", "web-3"].map
          (fun n => Pod.mk n "Running" [])).length * 50 / 100) ∧
      0 < rec.killed_pods.length :=
  ⟨by decide,
   pod_kill_count_and_names
     { name := "exp", description := "", failure_type := .pod_kill,
       target := { namespace_ := "default", selector := [("app", "web")],
                   percentage := 50 },
       duration := 10 }
     (["web-0", "web-1", "web-2", "web-3"].map
       (fun n => Pod.mk n "Running" []))
     (by decide) (by decide)⟩

/-- C7: steady-state validation always produces a verdict: a check that
hits an exception yields `valid := false` with the error recorded
instead of propagating, and the aggregate `valid` is the logical AND of
the `valid` fields of the present checks, vacuously true when the
hypothesis has no checks. -/
theorem validate_steady_state_aggregate (h : Hypothesis) (env : CheckEnv)
    (phc : PodHealthConfig) (sac : ServiceAvailabilityConfig) (e e' : String) :
    ((validate_steady_state h env).valid =
      (((h.pod_health.map fun c => (check_pod_health c env.pods).valid).getD
          true) &&
       ((h.service_availability.map fun c =>
          (check_service_availability c env.http).valid).getD true) &&
       ((h.metrics.map fun c => (check_metrics c).valid).getD true))) ∧
    (validate_steady_state {} env).valid = true ∧
    (validate_steady_state {} env).checks = [] ∧
    check_pod_health phc (Except.error e) =
      { type := "pod_health", valid := false, error := some e } ∧
    check_service_availability sac (Except.error e') =
      { type := "service_availability", valid := false, error := some e' } := by
  obtain ⟨hp, hs, hm⟩ := h
  refine ⟨?_, ?_, ?_, rfl, rfl⟩
  · cases hp <;> cases hs <;> cases hm <;>
      simp [validate_steady_state, Bool.and_assoc]
  · simp [validate_steady_state]
  · simp [validate_steady_state]

/-- C10: the metric-threshold check is a placeholder that returns
`valid := true` for every configuration, so a hypothesis whose only
present check is `metrics` always validates, in every environment. -/
theorem check_metrics_always_valid (cfg : MetricsConfig) (env : CheckEnv) :
    check_metrics cfg = { type := "metrics", valid := true } ∧
    (validate_steady_state { metrics := some cfg } env).valid = true ∧
    (validate_steady_state { metrics := some cfg } env).checks =
      [check_metrics cfg] := by
  refine ⟨rfl, ?_, ?_⟩ <;> simp [validate_steady_state, check_metrics]

/-- If every poll in the remaining window sees fewer Running pods than
were killed, the wait loop times out. -/
theorem waitLoop_timeout (polls : Nat → List Pod) (killed : Nat) :
    ∀ fuel i, (∀ j, j < fuel →
        ((polls (i + j)).filter isRunning).length < killed) →
      waitLoop polls killed fuel i = .error "Pod recovery timeout" := by
  intro fuel
  induction fuel with
  | zero => intro i _; rfl
  | succ n ih =>
    intro i h
    have h0 := h 0 (Nat.succ_pos n)
    simp only [Nat.add_zero] at h0
    have hneg : ¬((polls i).filter isRunning).length ≥ killed := by omega
    simp only [waitLoop]
    rw [if_neg hneg]
    exact ih (i + 1) (fun j hj => by
      have := h (j + 1) (by omega)
      simpa [Nat.add_assoc, Nat.add_comm 1 j] using this)

/-- If some poll in the remaining window sees at least `killed` Running
pods, the wait loop returns a `pod_recovery` record listing at least
`killed` recovered pods. -/
theorem waitLoop_ok (polls : Nat → List Pod) (killed : Nat) :
    ∀ fuel i, (∃ j, j < fuel ∧
        killed ≤ ((polls (i + j)).filter isRunning).length) →
      ∃ rec, waitLoop polls killed fuel i = .ok rec ∧
        rec.type = "pod_recovery" ∧
        killed ≤ rec.recovered_pods.length := by
  intro fuel
  induction fuel with
  | zero => rintro i ⟨j, hj, _⟩; omega
  | succ n ih =>
    rintro i ⟨j, hj, hcount⟩
    by_cases hnow : ((polls i).filter isRunning).length ≥ killed
    · refine ⟨{ type := "pod_recovery",
                recovered_pods := ((polls i).filter isRunning).map Pod.name },
              ?_, rfl, ?_⟩
      · simp only [waitLoop]
        rw [if_pos hnow]
      · simpa using hnow
    · have hj0 : j ≠ 0 := by
        rintro rfl; simp only [Nat.add_zero] at hcount; omega
      simp only [waitLoop]
      rw [if_neg hnow]
      exact ih (i + 1) ⟨j - 1, by omega, by
        have : i + 1 + (j - 1) = i + j := by omega
        rw [this]; exact hcount⟩

/-- C8: pod-kill recovery polls the selector at a 5-second interval under
a 300-second cap (polls `i = 0 … 59`): if some poll in the window
observes a count of Running pods at least the number originally killed,
it returns a `pod_recovery` record whose `recovered_pods` has length at
least that count; if no poll in the window does, it fails with
`"Pod recovery timeout"`. -/
theorem pod_recovery_poll_spec (fi : FailureRecord) (polls : Nat → List Pod) :
    ((∀ i, i < 60 →
        ((polls i).filter isRunning).length < fi.killed_pods.length) →
      wait_for_pod_recovery fi polls = .error "Pod recovery timeout") ∧
    ((∃ i, i < 60 ∧
        fi.killed_pods.length ≤ ((polls i).filter isRunning).length) →
      ∃ rec, wait_for_pod_recovery fi polls = .ok rec ∧
        rec.type = "pod_recovery" ∧
        fi.killed_pods.length ≤ rec.recovered_pods.length) := by
  constructor
  · intro h
    exact waitLoop_timeout polls fi.killed_pods.length 60 0
      (fun j hj => by simpa using h j hj)
  · rintro ⟨i, hi, hcount⟩
    exact waitLoop_ok polls fi.killed_pods.length 60 0
      ⟨i, hi, by simpa using hcount⟩

theorem pod_recovery_poll_spec_witness :
    (∃ i, i < 60 ∧
      (FailureRecord.killed_pods
          { type := "pod_kill", killed_pods := ["web-0", "web-1"] }).length ≤
        (((fun _ => [Pod.mk "web-0a" "Running" [], Pod.mk "web-1a" "Running" []] :
            Nat → List Pod) i).filter isRunning).length) ∧
    ∃ rec,
      wait_for_pod_recovery { type := "pod_kill", killed_pods := ["web-0", "web-1"] }
        (fun _ => [Pod.mk "web-0a" "Running" [], Pod.mk "web-1a" "Running" []]) =
        .ok rec ∧
      rec.type = "pod_recovery" ∧
      (FailureRecord.killed_pods
        { type := "pod_kill", killed_pods := ["web-0", "web-1"] }).length ≤
        rec.recovered_pods.length :=
  ⟨⟨0, by omega, by decide⟩,
   (pod_recovery_poll_spec
      { type := "pod_kill", killed_pods := ["web-0", "web-1"] }
      (fun _ => [Pod.mk "web-0a" "Running" [], Pod.mk "web-1a" "Running" []])).2
     ⟨0, by omega, by decide⟩⟩

/-- The `except` handler always leaves the result FAILED with the end
time stamped and the message kept, and never touches the
injected-failure list. -/
theorem runExceptHandler_basic (env : RunEnv) (r : ExperimentResult)
    (e : String) :
    (runExceptHandler env r e).status = .failed ∧
    (runExceptHandler env r e).end_time_stamped = true ∧
    (runExceptHandler env r e).error_message = some e ∧
    (runExceptHandler env r e).injected_failures = r.injected_failures := by
  unfold runExceptHandler
  cases hL : r.injected_failures.getLast? with
  | none => simp [hL]
  | some fi =>
    cases hrec : recover_from_failure fi env.failRecoveryPolls <;>
      simp [hL, hrec]

/-- A `try` body that raised no exception ran to step 8, so its result is
COMPLETED. -/
theorem runTryFrom2_none_status (cfg : ExperimentConfig) (env : RunEnv)
    (r0 : ExperimentResult) (r : ExperimentResult)
    (h : runTryFrom2 cfg env r0 = (r, none)) : r.status = .completed := by
  unfold runTryFrom2 at h
  repeat' split at h
  all_goals
    first
    | (injection h with h1 h2; exact Option.noConfusion h2)
    | (injection h with h1 h2; rw [← h1])

/-- `run_experiment` always returns a result in a terminal status. -/
theorem run_experiment_terminal (cfg : ExperimentConfig) (env : RunEnv)
    (eid : String) (st : EngineState) :
    (run_experiment cfg env eid st).1.status = .completed ∨
    (run_experiment cfg env eid st).1.status = .failed := by
  unfold run_experiment
  rcases hT : runTryFrom2 cfg env
      { experiment_id := eid, name := cfg.name, status := .pending }
    with ⟨r, exc⟩
  cases exc with
  | none =>
    left
    simp only [hT]
    exact runTryFrom2_none_status cfg env _ r hT
  | some e =>
    right
    simp only [hT]
    exact (runExceptHandler_basic env r e).1

/-- C3: when the pre-validation verdict is invalid, `run_experiment`
performs no injection, attempts no recovery, and returns a FAILED result
whose error message is
`"Steady state validation failed before experiment"`. -/
theorem prevalidation_failure_no_injection (cfg : ExperimentConfig)
    (env : RunEnv) (eid : String) (st : EngineState) (h : Hypothesis)
    (hh : cfg.steady_state_hypothesis = some h)
    (hinv : (validate_steady_state h env.checksBefore).valid = false) :
    (run_experiment cfg env eid st).1.status = .failed ∧
    (run_experiment cfg env eid st).1.error_message =
      some "Steady state validation failed before experiment" ∧
    (run_experiment cfg env eid st).1.injected_failures = [] ∧
    (run_experiment cfg env eid st).1.recovery_actions = [] := by
  simp [run_experiment, runTryFrom2, runExceptHandler, hh, hinv]

/-- An experiment whose baseline hypothesis cannot hold: the pod listing
of its pre-validation errors out. -/
def invalidBaselineCfg : ExperimentConfig :=
  { name := "exp", description := "", failure_type := FailureType.pod_kill,
    target := { namespace_ := "default", selector := [] }, duration := 5,
    steady_state_hypothesis := some { pod_health := some { min_replicas := 1 } } }

/-- The environment in which `invalidBaselineCfg` runs: every pod listing
raises. -/
def invalidBaselineEnv : RunEnv :=
  { checksBefore :=
      { pods := Except.error "connection refused", http := Except.ok 200 },
    injectPods := Except.ok [],
    recoveryPolls := fun _ => [],
    checksAfter :=
      { pods := Except.error "connection refused", http := Except.ok 200 },
    failRecoveryPolls := fun _ => [] }

theorem prevalidation_failure_no_injection_witness :
    invalidBaselineCfg.steady_state_hypothesis =
      some { pod_health := some { min_replicas := 1 } } ∧
    (validate_steady_state { pod_health := some { min_replicas := 1 } }
      invalidBaselineEnv.checksBefore).valid = false ∧
    (run_experiment invalidBaselineCfg invalidBaselineEnv "e1" {}).1.status =
      .failed ∧
    (run_experiment invalidBaselineCfg invalidBaselineEnv
      "e1" {}).1.injected_failures = [] := by
  have h := prevalidation_failure_no_injection invalidBaselineCfg
    invalidBaselineEnv "e1" {} { pod_health := some { min_replicas := 1 } }
    rfl rfl
  exact ⟨rfl, rfl, h.1, h.2.2.1⟩

/-- C4: when a step after a successful injection raises, the result is
FAILED with the end time stamped and the error message preserved, a
recovery attempt is still made from the most recent injected-failure
record (its own failure appends nothing but does not propagate), and
`run_experiment` always returns a result in a terminal status. -/
theorem post_injection_failure_recovers (cfg : ExperimentConfig)
    (env : RunEnv) (eid : String) (st : EngineState) (fi : FailureRecord)
    (e : String)
    (hpre : ∀ h, cfg.steady_state_hypothesis = some h →
      (validate_steady_state h env.checksBefore).valid = true)
    (hinj : inject_failure cfg env.injectPods = .ok fi)
    (hrec : recover_from_failure fi env.recoveryPolls = .error e) :
    ((run_experiment cfg env eid st).1.status = .failed ∧
     (run_experiment cfg env eid st).1.end_time_stamped = true ∧
     (run_experiment cfg env eid st).1.error_message = some e ∧
     (run_experiment cfg env eid st).1.injected_failures = [fi] ∧
     (run_experiment cfg env eid st).1.recovery_actions =
       (recover_from_failure fi env.failRecoveryPolls).toOption.toList) ∧
    ∀ (cfg' : ExperimentConfig) (env' : RunEnv) (eid' : String)
      (st' : EngineState),
      (run_experiment cfg' env' eid' st').1.status = .completed ∨
      (run_experiment cfg' env' eid' st').1.status = .failed := by
  constructor
  · rcases hh : cfg.steady_state_hypothesis with _ | hyp
    · cases hfr : recover_from_failure fi env.failRecoveryPolls <;>
        simp [run_experiment, runTryFrom2, runExceptHandler, hh, hinj, hrec,
          hfr, Except.toOption]
    · have hv := hpre hyp hh
      cases hfr : recover_from_failure fi env.failRecoveryPolls <;>
        simp [run_experiment, runTryFrom2, runExceptHandler, hh, hinj, hrec,
          hfr, hv, Except.toOption]
  · intro cfg' env' eid' st'
    exact run_experiment_terminal cfg' env' eid' st'

/-- A pod-kill experiment with no hypothesis whose recovery polling
never sees the replacement pod. -/
def postInjectionCfg : ExperimentConfig :=
  { name := "exp", description := "", failure_type := .pod_kill,
    target := { namespace_ := "default", selector := [("app", "web")] },
    duration := 5 }

/-- Environment for `postInjectionCfg`: injection sees one pod, but every
later poll sees an empty listing, so both the main-path recovery and the
best-effort recovery of the handler time out. -/
def postInjectionEnv : RunEnv :=
  { checksBefore := { pods := Except.ok [], http := Except.ok 200 },
    injectPods := Except.ok [Pod.mk "web-0" "Running" []],
    recoveryPolls := fun _ => [],
    checksAfter := { pods := Except.ok [], http := Except.ok 200 },
    failRecoveryPolls := fun _ => [] }

/-- The failure record `postInjectionCfg`'s injection produces. -/
def postInjectionRecord : FailureRecord :=
  { type := "pod_kill", namespace_ := "default", selector := "app=web",
    killed_pods := ["web-0"] }

theorem post_injection_failure_recovers_witness :
    inject_failure postInjectionCfg postInjectionEnv.injectPods =
      .ok postInjectionRecord ∧
    recover_from_failure postInjectionRecord postInjectionEnv.recoveryPolls =
      .error "Pod recovery timeout" ∧
    (run_experiment postInjectionCfg postInjectionEnv "e1" {}).1.status =
      .failed ∧
    (run_experiment postInjectionCfg postInjectionEnv
      "e1" {}).1.error_message = some "Pod recovery timeout" ∧
    (run_experiment postInjectionCfg postInjectionEnv
      "e1" {}).1.recovery_actions = [] := by
  have h := post_injection_failure_recovers postInjectionCfg postInjectionEnv
    "e1" {} postInjectionRecord "Pod recovery timeout"
    (fun _ hh => Option.noConfusion hh) rfl rfl
  exact ⟨rfl, rfl, h.1.1, h.1.2.2.1, h.1.2.2.2.2.trans rfl⟩

/-- Deleting a key from the registry makes subsequent lookups of that key
fail. -/
theorem dictLookup_erase (eid : String) (d : List (String × ExperimentResult)) :
    dictLookup eid (dictErase eid d) = none := by
  have hfind : List.find? (fun kv => decide (kv.1 = eid))
      (List.filter (fun kv => decide (kv.1 ≠ eid)) d) = none := by
    rw [List.find?_eq_none]
    intro x hx
    rw [List.mem_filter] at hx
    simpa using hx.2
  simp [dictLookup, dictErase, hfind]

/-- C6: `abort_experiment` returns `false` whenever the id is not in the
running registry, and after a first successful abort a second call for
the same id returns `false` and leaves both registries unchanged. -/
theorem abort_idempotent (eid : String) (polls polls2 : Nat → List Pod)
    (st : EngineState) :
    (dictLookup eid st.running_experiments = none →
      abort_experiment eid polls st = (false, st)) ∧
    ∀ r, dictLookup eid st.running_experiments = some r →
      (abort_experiment eid polls st).1 = true ∧
      abort_experiment eid polls2 (abort_experiment eid polls st).2 =
        (false, (abort_experiment eid polls st).2) := by
  constructor
  · intro h
    simp [abort_experiment, h]
  · intro r hr
    have h2 : (abort_experiment eid polls st).2.running_experiments =
        dictErase eid st.running_experiments := by
      simp [abort_experiment, hr]
    have hnone : dictLookup eid
        (abort_experiment eid polls st).2.running_experiments = none := by
      rw [h2]
      exact dictLookup_erase eid st.running_experiments
    constructor
    · simp [abort_experiment, hr]
    · rw [abort_experiment, hnone]

/-- The engine state holding one running experiment `"e1"` with no
injected failures yet. -/
def oneRunningState : EngineState :=
  { running_experiments :=
      [("e1", { experiment_id := "e1", name := "exp",
                status := .running })] }

theorem abort_idempotent_witness :
    dictLookup "e1" oneRunningState.running_experiments =
      some { experiment_id := "e1", name := "exp", status := .running } ∧
    (abort_experiment "e1" (fun _ => []) oneRunningState).1 = true ∧
    abort_experiment "e1" (fun _ => [])
        (abort_experiment "e1" (fun _ => []) oneRunningState).2 =
      (false, (abort_experiment "e1" (fun _ => []) oneRunningState).2) :=
  ⟨rfl,
   ((abort_idempotent "e1" (fun _ => []) (fun _ => []) oneRunningState).2
     _ rfl).1,
   ((abort_idempotent "e1" (fun _ => []) (fun _ => []) oneRunningState).2
     _ rfl).2⟩

/-- C5 (evaluation at the failing input): a running experiment holds one
injected pod-kill record; the cluster already shows a Running replacement
pod, so an attempted recovery would succeed — yet `abort_experiment`
appends no recovery action, because the temporary `ExperimentConfig`
built inside its `try` omits the required `duration` field and the
resulting `TypeError` is swallowed.  The result is still marked ABORTED,
end-stamped, and moved to history. -/
theorem abort_skips_recovery_typeerror :
    (abort_experiment "e1" (fun _ => [Pod.mk "web-0a" "Running" []])
      { running_experiments :=
          [("e1", { experiment_id := "e1", name := "exp", status := .running,
                    injected_failures :=
                      [{ type := "pod_kill", killed_pods := ["web-0"] }] })] }).1
      = true ∧
    recover_from_failure { type := "pod_kill", killed_pods := ["web-0"] }
        (fun _ => [Pod.mk "web-0a" "Running" []]) =
      .ok { type := "pod_recovery", recovered_pods := ["web-0a"] } ∧
    (abort_experiment "e1" (fun _ => [Pod.mk "web-0a" "Running" []])
      { running_experiments :=
          [("e1", { experiment_id := "e1", name := "exp", status := .running,
                    injected_failures :=
                      [{ type := "pod_kill", killed_pods := ["web-0"] }] })] }).2
      = { running_experiments := []
          experiment_history :=
            [{ experiment_id := "e1", name := "exp", status := .aborted,
               end_time_stamped := true,
               injected_failures :=
                 [{ type := "pod_kill", killed_pods := ["web-0"] }],
               recovery_actions := [] }] } :=
  ⟨rfl, rfl, rfl⟩

/-- C1 (evaluation at the failing interleaving): `run_experiment`
registers the experiment (its first registry mutation), `abort_experiment`
for the same id then runs to completion during the dwell sleep — moving
the result to history and removing it from `running` — and finally the
resumed `run_experiment` executes its `finally` block on the shared
result object.  The `finally` block appends to history unconditionally
(only the registry delete is membership-guarded), so history receives two
entries for the one id. -/
theorem run_abort_race_duplicates_history :
    (abort_experiment "e1" (fun _ => [])
      { running_experiments :=
          dictInsert "e1"
            { experiment_id := "e1", name := "exp", status := .pending }
            [] }).1 = true ∧
    (runFinally "e1"
      { experiment_id := "e1", name := "exp", status := .completed,
        end_time_stamped := true }
      (abort_experiment "e1" (fun _ => [])
        { running_experiments :=
            dictInsert "e1"
              { experiment_id := "e1", name := "exp", status := .pending }
              [] }).2).experiment_history.map
        ExperimentResult.experiment_id = ["e1", "e1"] ∧
    (runFinally "e1"
      { experiment_id := "e1", name := "exp", status := .completed,
        end_time_stamped := true }
      (abort_experiment "e1" (fun _ => [])
        { running_experiments :=
            dictInsert "e1"
              { experiment_id := "e1", name := "exp", status := .pending }
              [] }).2).running_experiments = [] :=
  ⟨rfl, rfl, rfl⟩

/-- Membership in an insertion. -/
theorem mem_insertSorted {b r : RecoveryRule} :
    ∀ {l : List RecoveryRule}, b ∈ insertSorted r l ↔ b = r ∨ b ∈ l := by
  intro l
  induction l with
  | nil => simp [insertSorted]
  | cons x xs ih =>
    by_cases h : r.priority ≤ x.priority
    · simp [insertSorted, h]
    · simp only [insertSorted, if_neg h, List.mem_cons, ih]
      tauto

/-- Insertion preserves ascending-priority sortedness. -/
theorem insertSorted_sorted (r : RecoveryRule) :
    ∀ l : List RecoveryRule,
      l.Sorted (fun a b => a.priority ≤ b.priority) →
      (insertSorted r l).Sorted (fun a b => a.priority ≤ b.priority) := by
  intro l
  induction l with
  | nil => intro _; simp [insertSorted]
  | cons x xs ih =>
    intro h
    rw [List.sorted_cons] at h
    by_cases hle : r.priority ≤ x.priority
    · rw [insertSorted, if_pos hle, List.sorted_cons]
      refine ⟨?_, by rw [List.sorted_cons]; exact h⟩
      intro b hb
      rcases List.mem_cons.mp hb with rfl | hb
      · exact hle
      · exact le_trans hle (h.1 b hb)
    · rw [insertSorted, if_neg hle, List.sorted_cons]
      refine ⟨?_, ih h.2⟩
      intro b hb
      rcases mem_insertSorted.mp hb with rfl | hb
      · omega
      · exact h.1 b hb

/-- The embedded stable sort produces an ascending-priority list. -/
theorem sortByPriority_sorted (l : List RecoveryRule) :
    (sortByPriority l).Sorted (fun a b => a.priority ≤ b.priority) := by
  induction l with
  | nil => simp [sortByPriority]
  | cons x xs ih => exact insertSorted_sorted x _ ih

/-- A tick on which no rule raises invokes exactly the matching rules'
actions, in rule-list order. -/
theorem runRulesFrom_no_raise (m : MetricsSnapshot) :
    ∀ rules : List RecoveryRule,
      (∀ r ∈ rules, ∃ b, r.condition m = Except.ok b) →
      (∀ r ∈ rules, ruleMatches m r = true → r.action m = Except.ok ()) →
      runRulesFrom m rules =
        ((rules.filter (ruleMatches m)).map RecoveryRule.name, none) := by
  intro rules
  induction rules with
  | nil => intro _ _; rfl
  | cons r rest ih =>
    intro hconds hacts
    obtain ⟨b, hb⟩ := hconds r (List.mem_cons_self r rest)
    have ih' := ih
      (fun x hx => hconds x (List.mem_cons_of_mem r hx))
      (fun x hx => hacts x (List.mem_cons_of_mem r hx))
    cases b with
    | false =>
      have hm : ruleMatches m r = false := by simp [ruleMatches, hb]
      simp [runRulesFrom, hb, List.filter_cons, hm, ih']
    | true =>
      have hm : ruleMatches m r = true := by simp [ruleMatches, hb]
      have ha := hacts r (List.mem_cons_self r rest) hm
      simp [runRulesFrom, hb, ha, List.filter_cons, hm, ih']

/-- C9 as stated is false: when an earlier rule's action raises, the
remaining matching rules of that tick are never invoked.  Here `r2`
matches the snapshot but its action is not run on either tick, because
`r1`'s action raises first — though the loop does continue ticking. -/
theorem rule_exception_skips_rest_of_tick :
    let r1 : RecoveryRule := { name := "r1", condition := fun _ => .ok true,
                               action := fun _ => .error "boom", priority := 1 }
    let r2 : RecoveryRule := { name := "r2", condition := fun _ => .ok true,
                               action := fun _ => .ok (), priority := 2 }
    ruleMatches {} r2 = true ∧
    (runRulesFrom {} [r1, r2]).1 = ["r1"] ∧
    (runRulesFrom {} [r1, r2]).1.contains "r2" = false ∧
    monitor_and_recover [r1, r2] [{}, {}] =
      [(["r1"], some "boom"), (["r1"], some "boom")] :=
  ⟨rfl, rfl, rfl, rfl⟩

/-- C9 amended: rules are kept in ascending-priority order; on a tick
where no rule's condition or action raises, the action of every matching
rule is invoked sequentially, not short-circuited after the first match;
and a tick that raises does not terminate the loop — the following
snapshots are still processed.  (A raising condition or action does,
however, skip the remaining rules of its own tick.) -/
theorem auto_recovery_tick_spec (rules : List RecoveryRule)
    (m : MetricsSnapshot) (ms : List MetricsSnapshot) (rule : RecoveryRule)
    (hconds : ∀ r ∈ rules, ∃ b, r.condition m = Except.ok b)
    (hacts : ∀ r ∈ rules, ruleMatches m r = true →
      r.action m = Except.ok ()) :
    runRulesFrom m rules =
      ((rules.filter (ruleMatches m)).map RecoveryRule.name, none) ∧
    (add_rule rule rules).Sorted (fun a b => a.priority ≤ b.priority) ∧
    monitor_and_recover rules (ms ++ [m]) =
      monitor_and_recover rules ms ++ [runRulesFrom m rules] := by
  refine ⟨runRulesFrom_no_raise m rules hconds hacts,
    sortByPriority_sorted _, ?_⟩
  simp [monitor_and_recover]

/-- The default pod-crash rule with an action that succeeds. -/
def podCrashRuleW : RecoveryRule :=
  { name := "pod_crash_recovery", condition := check_pod_crash,
    action := fun _ => .ok (), priority := 1 }

/-- The default high-error-rate rule with an action that succeeds. -/
def errorRateRuleW : RecoveryRule :=
  { name := "high_error_rate_recovery", condition := check_high_error_rate,
    action := fun _ => .ok (), priority := 3 }

/-- A snapshot on which both rules above co-trigger: pods below minimum
and an 8.0% error rate. -/
def degradedSnapshot : MetricsSnapshot :=
  { running_pods := 1, min_required := 2, service_valid := true,
    error_rate_tenths := 80 }

theorem auto_recovery_tick_spec_witness :
    runRulesFrom degradedSnapshot [podCrashRuleW, errorRateRuleW] =
      ((([podCrashRuleW, errorRateRuleW]).filter
        (ruleMatches degradedSnapshot)).map RecoveryRule.name, none) ∧
    (add_rule errorRateRuleW [podCrashRuleW, errorRateRuleW]).Sorted
      (fun a b => a.priority ≤ b.priority) ∧
    monitor_and_recover [podCrashRuleW, errorRateRuleW]
        ([degradedSnapshot] ++ [degradedSnapshot]) =
      monitor_and_recover [podCrashRuleW, errorRateRuleW] [degradedSnapshot] ++
        [runRulesFrom degradedSnapshot [podCrashRuleW, errorRateRuleW]] := by
  refine auto_recovery_tick_spec [podCrashRuleW, errorRateRuleW]
    degradedSnapshot [degradedSnapshot] errorRateRuleW ?_ ?_
  · intro r hr
    rcases List.mem_cons.mp hr with rfl | hr
    · exact ⟨true, rfl⟩
    · rcases List.mem_cons.mp hr with rfl | hr
      · exact ⟨true, rfl⟩
      · exact absurd hr (List.not_mem_nil r)
  · intro r hr _
    rcases List.mem_cons.mp hr with rfl | hr
    · rfl
    · rcases List.mem_cons.mp hr with rfl | hr
      · rfl
      · exact absurd hr (List.not_mem_nil r)

end Qraiop
